import Mathlib

/-!
Shallow embedding of `.github/scripts/assign_reviewer.py`, a PR reviewer
rotation script.  The embedding covers the sprint-number arithmetic
(`get_current_sprint_number`), the rotation of the maintainer list into a
reviewer pool (`get_reviewer_pool`), the reviewer read with its
exception handler (`get_pr_reviewers`), the write (`assign_reviewers`),
the reconciliation decision of `ReviewerAssigner.run`, and the exit-code
mapping of `main`.

Python integer division `//` and modulo `%` are floored, so they are
modelled with `Int.fdiv` and `Int.fmod`.  Instants (`datetime.now()` and the
fixed sprint start date) are modelled as integer seconds; the `.days`
attribute of a Python `timedelta` is the floor of the second difference over
86400, which `Int.fdiv` gives.
-/

namespace AssignReviewer

/-- Module constant `SPRINT_WEEKS = 3` (source line 29, under the
`# Configuration` comment). -/
def SPRINT_WEEKS : Nat := 3

/-- The `sprint_config` record of the configuration file read by
`load_config` (source lines 47-71). -/
structure SprintConfig where
  weeks_per_sprint : Nat
  reviewers_per_pr : Nat
  pool_size : Nat
deriving DecidableEq, Repr

/-- The fallback configuration `load_config` substitutes when the
configuration file is missing or malformed:
`weeks_per_sprint = 3, reviewers_per_pr = 2, pool_size = 3`. -/
def default_sprint_config : SprintConfig := ⟨3, 2, 3⟩

/-- `get_sprint_start_date` returns the fixed `datetime(2024, 1, 1)`
(source line 107), modelled as seconds since the Unix epoch:
2024-01-01T00:00:00Z = 1704067200. -/
def get_sprint_start_date : Int := 1704067200

/-- `get_current_sprint_number` (source lines 110-116):
`days_diff = (current_date - start_date).days` followed by
`days_diff // (SPRINT_WEEKS * 7) + 1`.  The method has `self.config` in
scope but uses the hard-coded module constant `SPRINT_WEEKS`, so the
configuration argument is unused. -/
def get_current_sprint_number (_config : SprintConfig) (nowSec : Int) : Int :=
  let days_diff := Int.fdiv (nowSec - get_sprint_start_date) 86400
  Int.fdiv days_diff ((SPRINT_WEEKS : Int) * 7) + 1

/-- `start_index = (sprint_number - 1) % len(maintainers)` (source line 127);
Python `%` is the floored modulo `Int.fmod`. -/
def start_index (sprint_number : Int) (num_maintainers : Nat) : Int :=
  Int.fmod (sprint_number - 1) (num_maintainers : Int)

/-- `get_reviewer_pool` (source lines 118-137): empty input gives an empty
pool; otherwise rotate the list at `start_index` and keep
`min(pool_size, len(rotated_pool))` elements. -/
def get_reviewer_pool (maintainers : List String) (sprint_number : Int)
    (pool_size : Nat) : List String :=
  if maintainers = [] then []
  else
    let i := (start_index sprint_number maintainers.length).toNat
    let rotated_pool := maintainers.drop i ++ maintainers.take i
    let size := min pool_size rotated_pool.length
    rotated_pool.take size

/-- `get_pr_reviewers` (source lines 139-161): on a successful HTTP read it
returns the user logins of the PR's requested reviewers (team grants are
skipped); on `requests.exceptions.RequestException` the handler logs the
error and returns the empty set. -/
def get_pr_reviewers (response : Except Unit (List String)) : List String :=
  match response with
  | Except.ok users => users
  | Except.error _ => []

/-- Outcome of one invocation: the boolean the Python function returns, and
the payload of the reviewer-request POST if one was sent (`none` when no
POST happened, including test mode). -/
structure RunResult where
  success : Bool
  write : Option (List String)
deriving DecidableEq, Repr

/-- `assign_reviewers` (source lines 163-184): an empty reviewer list is
rejected; in test mode the POST is skipped and success reported; otherwise
the POST is sent and its outcome (`postOk`) reported. -/
def assign_reviewers (reviewers : List String) (test_mode postOk : Bool) :
    RunResult :=
  if reviewers = [] then ⟨false, none⟩
  else if test_mode then ⟨true, none⟩
  else ⟨postOk, some reviewers⟩

/-- The decision part of `run` (source lines 195-212), as a function of the
computed pool and the observed current reviewers: an empty pool fails; a
primary reviewer already assigned is a successful no-op; otherwise exactly
the single primary reviewer is handed to `assign_reviewers`. -/
def run_decision (reviewer_pool current_reviewers : List String)
    (test_mode postOk : Bool) : RunResult :=
  match reviewer_pool with
  | [] => ⟨false, none⟩
  | sprint_reviewer :: _ =>
    if sprint_reviewer ∈ current_reviewers then ⟨true, none⟩
    else assign_reviewers [sprint_reviewer] test_mode postOk

/-- `run` (source lines 186-212): read the current reviewers (through the
exception handler of `get_pr_reviewers`), compute the pool for the current
sprint from the loaded configuration's `pool_size`, then decide. -/
def run (config : SprintConfig) (nowSec : Int) (maintainers : List String)
    (response : Except Unit (List String)) (test_mode postOk : Bool) :
    RunResult :=
  let current_reviewers := get_pr_reviewers response
  let reviewer_pool :=
    get_reviewer_pool maintainers (get_current_sprint_number config nowSec)
      config.pool_size
  run_decision reviewer_pool current_reviewers test_mode postOk

/-- `main` (source lines 230-234): `sys.exit(1)` when `run` returned
`False`, exit status 0 otherwise. -/
def main_exit_code (success : Bool) : Nat := if success then 0 else 1

/-- `get_maintainers` (source lines 73-101) collects the regex matches of
both patterns into the Python set `usernames` and returns
`list(usernames)`.  The order of `list` over a set is the interpreter's
set-iteration order, which the document content does not determine; this
relation holds of every possible result: a duplicate-free enumeration of
the extracted username set. -/
def get_maintainers_possible (at_matches link_matches result : List String) :
    Prop :=
  result.Nodup ∧ result.toFinset = (at_matches ++ link_matches).toFinset

/-! ### Helper lemmas -/

theorem fdiv_86400_eq_ediv (a : Int) : Int.fdiv a 86400 = a / 86400 :=
  Int.fdiv_eq_ediv _ (by norm_num)

theorem fdiv_21_eq_ediv (a : Int) : Int.fdiv a 21 = a / 21 :=
  Int.fdiv_eq_ediv _ (by norm_num)

theorem start_index_nonneg (s : Int) (n : Nat) (hn : 0 < n) :
    0 ≤ start_index s n :=
  Int.fmod_nonneg' _ (by exact_mod_cast hn)

theorem start_index_lt (s : Int) (n : Nat) (hn : 0 < n) :
    start_index s n < (n : Int) :=
  Int.fmod_lt_of_pos _ (by exact_mod_cast hn)

theorem start_index_toNat_lt (s : Int) (n : Nat) (hn : 0 < n) :
    (start_index s n).toNat < n := by
  have h1 := start_index_nonneg s n hn
  have h2 := start_index_lt s n hn
  omega

theorem rotated_pool_length (M : List String) (i : Nat) (h : i ≤ M.length) :
    (M.drop i ++ M.take i).length = M.length := by
  simp only [List.length_append, List.length_drop, List.length_take]
  omega

/-! ### Claims -/

/-- C1: for every non-empty maintainer sequence `M`, integer sprint number
`s` and pool-size limit `k`, the reviewer pool is `M` rotated left by
`offset = (s - 1) mod |M|` (that is, `M[offset:] ++ M[:offset]`) truncated
to `min(k, |M|)` elements; for the empty maintainer sequence the pool is
empty. -/
theorem reviewer_pool_rotate_truncate (M : List String) (s : Int) (k : Nat) :
    (M ≠ [] →
      get_reviewer_pool M s k =
        (M.drop (start_index s M.length).toNat ++
            M.take (start_index s M.length).toNat).take (min k M.length)) ∧
    get_reviewer_pool [] s k = [] := by
  refine ⟨fun hM => ?_, rfl⟩
  have hn : 0 < M.length := List.length_pos.mpr hM
  have hlen := rotated_pool_length M (start_index s M.length).toNat
    (Nat.le_of_lt (start_index_toNat_lt s M.length hn))
  simp only [get_reviewer_pool]
  rw [if_neg hM, hlen]

/-- Witness for C1 at `M = [alice, bob, carol]`, `s = 2`, `k = 3`. -/
theorem reviewer_pool_rotate_truncate_witness :
    get_reviewer_pool ["alice", "bob", "carol"] 2 3 =
      ((["alice", "bob", "carol"] : List String).drop
          (start_index 2 (["alice", "bob", "carol"] : List String).length).toNat ++
        (["alice", "bob", "carol"] : List String).take
          (start_index 2 (["alice", "bob", "carol"] : List String).length).toNat).take
        (min 3 (["alice", "bob", "carol"] : List String).length) :=
  (reviewer_pool_rotate_truncate ["alice", "bob", "carol"] 2 3).1 (by decide)

/-- C2: for every non-empty pool (written `primary :: rest`) and current
reviewer set `R`, the reconciliation decision yields a successful no-write
outcome when `primary ∈ R`, and otherwise hands exactly the single reviewer
`primary` to the write; consequently, once the current reviewer set contains
`primary` (as it does after `AssignOne(primary)` is applied), deciding again
is a successful no-op and no further assignment ever occurs. -/
theorem decide_noop_or_assign_primary (primary : String) (rest R : List String)
    (tm ok : Bool) :
    (primary ∈ R → run_decision (primary :: rest) R tm ok = ⟨true, none⟩) ∧
    (primary ∉ R →
      run_decision (primary :: rest) R false ok = ⟨ok, some [primary]⟩) ∧
    (∀ R2 : List String, primary ∈ R2 →
      run_decision (primary :: rest) R2 tm ok = ⟨true, none⟩) := by
  refine ⟨fun h => ?_, fun h => ?_, fun R2 h => ?_⟩
  · simp [run_decision, h]
  · simp [run_decision, assign_reviewers, h]
  · simp [run_decision, h]

/-- Witness for C2, Scenario E of the spec: pool `[bob, carol, alice]`,
current reviewers `{dave}`, real mode with a succeeding POST: the run
assigns exactly `bob`. -/
theorem decide_noop_or_assign_primary_witness :
    run_decision ["bob", "carol", "alice"] ["dave"] false true =
      ⟨true, some ["bob"]⟩ :=
  (decide_noop_or_assign_primary "bob" ["carol", "alice"] ["dave"] false
    true).2.1 (by decide)

/-- C3: for every current time `now` (and any loaded configuration), the
sprint number equals `floor((now - epoch) in days / (weeksPerSprint * 7)) + 1`
with the fixed epoch 2024-01-01 and the configured constant
`SPRINT_WEEKS = 3`; for `now` before the epoch the floored divisions make
the result legitimately ≤ 0 rather than an error. -/
theorem sprint_number_formula (c : SprintConfig) (now : Int) :
    get_current_sprint_number c now =
      Int.fdiv (Int.fdiv (now - get_sprint_start_date) 86400)
        ((SPRINT_WEEKS : Int) * 7) + 1 ∧
    (now < get_sprint_start_date → get_current_sprint_number c now ≤ 0) := by
  refine ⟨rfl, fun h => ?_⟩
  have h' : now < 1704067200 := h
  show Int.fdiv (Int.fdiv (now - 1704067200) 86400) 21 + 1 ≤ 0
  rw [fdiv_86400_eq_ediv, fdiv_21_eq_ediv]
  omega

/-- Witness for C3 at `now = 0` (before the epoch): the sprint number is
non-positive. -/
theorem sprint_number_formula_witness :
    get_current_sprint_number default_sprint_config 0 ≤ 0 :=
  (sprint_number_formula default_sprint_config 0).2 (by decide)

/-- C4: for every integer sprint number `s` (including `s ≤ 0`) and every
non-empty maintainer sequence `M`, the rotation offset `(s - 1) mod |M|` is
non-negative and strictly below `|M|` (floored modulo), so the pool
construction never indexes with a negative or out-of-range offset. -/
theorem start_index_in_range (M : List String) (s : Int) (h : M ≠ []) :
    0 ≤ start_index s M.length ∧ start_index s M.length < (M.length : Int) ∧
    (start_index s M.length).toNat < M.length := by
  have hn : 0 < M.length := List.length_pos.mpr h
  exact ⟨start_index_nonneg s M.length hn, start_index_lt s M.length hn,
    start_index_toNat_lt s M.length hn⟩

/-- Witness for C4 at the negative sprint number `s = -5` and a
three-element maintainer list. -/
theorem start_index_in_range_witness :
    0 ≤ start_index (-5) (["a", "b", "c"] : List String).length ∧
    start_index (-5) (["a", "b", "c"] : List String).length <
      ((["a", "b", "c"] : List String).length : Int) ∧
    (start_index (-5) (["a", "b", "c"] : List String).length).toNat <
      (["a", "b", "c"] : List String).length :=
  start_index_in_range ["a", "b", "c"] (-5) (by decide)

/-- C5: whenever the computed reviewer pool is empty — in particular for an
empty maintainer sequence, or a pool size of 0 — the run reports failure,
sends no write, and the process exits with status 1. -/
theorem empty_pool_run_fails (c : SprintConfig) (now : Int) (M : List String)
    (resp : Except Unit (List String)) (tm ok : Bool) (s : Int) (k : Nat)
    (h : get_reviewer_pool M (get_current_sprint_number c now) c.pool_size
      = []) :
    get_reviewer_pool [] s k = [] ∧
    get_reviewer_pool M s 0 = [] ∧
    run c now M resp tm ok = ⟨false, none⟩ ∧
    main_exit_code (run c now M resp tm ok).success = 1 := by
  have hrun : run c now M resp tm ok = ⟨false, none⟩ := by
    show run_decision
        (get_reviewer_pool M (get_current_sprint_number c now) c.pool_size)
        (get_pr_reviewers resp) tm ok = ⟨false, none⟩
    rw [h]
    rfl
  refine ⟨rfl, ?_, hrun, by rw [hrun]; rfl⟩
  cases M with
  | nil => rfl
  | cons a l => simp [get_reviewer_pool]

/-- Witness for C5: empty maintainer list, default configuration: the run
fails without a write and the exit status is 1. -/
theorem empty_pool_run_fails_witness :
    run default_sprint_config 1704067200 [] (Except.ok []) false true =
      ⟨false, none⟩ ∧
    main_exit_code
      (run default_sprint_config 1704067200 [] (Except.ok [])
        false true).success = 1 := by
  have h := empty_pool_run_fails default_sprint_config 1704067200 []
    (Except.ok []) false true 1 1 rfl
  exact ⟨h.2.2.1, h.2.2.2⟩

/-- C6 counterexample: the claim says a network/authentication failure while
reading the current reviewer set is surfaced as a failure of the whole run
and that the run does not proceed to a decision or write.  At the concrete
input below the read fails (`Except.error ()`), yet the run proceeds,
performs the write `["alice"]`, and reports success. -/
theorem run_read_error_counterexample :
    (run default_sprint_config 1704067200 ["alice"] (Except.error ())
        false true).success = true ∧
    (run default_sprint_config 1704067200 ["alice"] (Except.error ())
        false true).write = some ["alice"] := by
  constructor
  · rfl
  · rfl

/-- C6 amended: a failed reviewer read is recovered inside
`get_pr_reviewers` by returning the empty set, and the run then proceeds to
decide and possibly write exactly as if the PR had no requested reviewers;
the read failure by itself never makes the run non-successful. -/
theorem run_read_error_swallowed (c : SprintConfig) (now : Int)
    (M : List String) (tm ok : Bool) :
    run c now M (Except.error ()) tm ok = run c now M (Except.ok []) tm ok :=
  rfl

/-- C7: the code collects maintainer identifiers into a Python set and
returns `list(usernames)`; two duplicate-free enumerations of the same
extracted set are both possible results for the same document content, and
they differ, so the order is not a reproducible function of the document
(it is the set-iteration order, which varies with the interpreter's hash
seed), contrary to the claimed stable ordering. -/
theorem maintainers_order_not_reproducible :
    get_maintainers_possible ["alice", "bob"] [] ["alice", "bob"] ∧
    get_maintainers_possible ["alice", "bob"] [] ["bob", "alice"] ∧
    (["alice", "bob"] : List String) ≠ ["bob", "alice"] := by
  unfold get_maintainers_possible
  refine ⟨⟨by decide, by decide⟩, ⟨by decide, by decide⟩, by decide⟩

/-- C8: for `now1 ≤ now2` at or after the epoch the sprint number is
non-decreasing, and advancing any time by exactly `SPRINT_WEEKS * 7` days
increases the sprint number by exactly 1. -/
theorem sprint_number_monotone_step (c : SprintConfig) (now1 now2 : Int)
    (h1 : now1 ≤ now2) (_h2 : get_sprint_start_date ≤ now1) :
    get_current_sprint_number c now1 ≤ get_current_sprint_number c now2 ∧
    ∀ now : Int,
      get_current_sprint_number c (now + ((SPRINT_WEEKS : Int) * 7) * 86400) =
        get_current_sprint_number c now + 1 := by
  constructor
  · show Int.fdiv (Int.fdiv (now1 - 1704067200) 86400) 21 + 1 ≤
        Int.fdiv (Int.fdiv (now2 - 1704067200) 86400) 21 + 1
    rw [fdiv_86400_eq_ediv, fdiv_86400_eq_ediv, fdiv_21_eq_ediv,
      fdiv_21_eq_ediv]
    omega
  · intro now
    show Int.fdiv (Int.fdiv (now + 21 * 86400 - 1704067200) 86400) 21 + 1 =
        Int.fdiv (Int.fdiv (now - 1704067200) 86400) 21 + 1 + 1
    rw [fdiv_86400_eq_ediv, fdiv_86400_eq_ediv, fdiv_21_eq_ediv,
      fdiv_21_eq_ediv]
    omega

/-- Witness for C8 at `now1 = epoch`, `now2 = epoch + 1`, and one exact
sprint-length step from the epoch. -/
theorem sprint_number_monotone_step_witness :
    get_current_sprint_number default_sprint_config 1704067200 ≤
      get_current_sprint_number default_sprint_config 1704067201 ∧
    get_current_sprint_number default_sprint_config
        (1704067200 + ((SPRINT_WEEKS : Int) * 7) * 86400) =
      get_current_sprint_number default_sprint_config 1704067200 + 1 := by
  have h := sprint_number_monotone_step default_sprint_config 1704067200
    1704067201 (by decide) (by decide)
  exact ⟨h.1, h.2 1704067200⟩

/-- C9: the reviewer pool is periodic in the sprint number with period
`|M|`, for every maintainer sequence (the empty one included). -/
theorem reviewer_pool_periodic (M : List String) (s : Int) (k : Nat) :
    get_reviewer_pool M s k = get_reviewer_pool M (s + M.length) k := by
  by_cases hM : M = []
  · subst hM
    rfl
  · have hpos : (0 : Int) < M.length := by
      exact_mod_cast List.length_pos.mpr hM
    have hidx : start_index (s + M.length) M.length = start_index s M.length := by
      unfold start_index
      rw [Int.fmod_eq_emod _ (Int.le_of_lt hpos),
        Int.fmod_eq_emod _ (Int.le_of_lt hpos)]
      have hmul : s + (M.length : Int) - 1 = (s - 1) + (M.length : Int) * 1 := by
        ring
      rw [hmul, Int.add_mul_emod_self_left]
    unfold get_reviewer_pool
    rw [hidx]

/-- C10: of the loaded configuration only `pool_size` influences any output:
two configurations agreeing on `pool_size` give identical sprint numbers
(the hard-coded `SPRINT_WEEKS` is used, never `weeks_per_sprint`),
identical pools, and identical run outcomes (`reviewers_per_pr` is never
read). -/
theorem config_only_pool_size_matters (c1 c2 : SprintConfig)
    (h : c1.pool_size = c2.pool_size) (now : Int) (M : List String)
    (resp : Except Unit (List String)) (tm ok : Bool) :
    get_current_sprint_number c1 now = get_current_sprint_number c2 now ∧
    get_reviewer_pool M (get_current_sprint_number c1 now) c1.pool_size =
      get_reviewer_pool M (get_current_sprint_number c2 now) c2.pool_size ∧
    run c1 now M resp tm ok = run c2 now M resp tm ok := by
  have hs : get_current_sprint_number c1 now =
      get_current_sprint_number c2 now := rfl
  refine ⟨hs, ?_, ?_⟩
  · rw [h, hs]
  · show run_decision
        (get_reviewer_pool M (get_current_sprint_number c1 now) c1.pool_size)
        (get_pr_reviewers resp) tm ok =
      run_decision
        (get_reviewer_pool M (get_current_sprint_number c2 now) c2.pool_size)
        (get_pr_reviewers resp) tm ok
    rw [h, hs]

/-- Witness for C10: two configurations differing in `weeks_per_sprint` and
`reviewers_per_pr` but agreeing on `pool_size` give the same run outcome. -/
theorem config_only_pool_size_matters_witness :
    run ⟨3, 2, 3⟩ 1704067200 ["alice", "bob"] (Except.ok []) false true =
      run ⟨9, 7, 3⟩ 1704067200 ["alice", "bob"] (Except.ok []) false true :=
  (config_only_pool_size_matters ⟨3, 2, 3⟩ ⟨9, 7, 3⟩ rfl 1704067200
    ["alice", "bob"] (Except.ok []) false true).2.2

end AssignReviewer
